import Mathlib

/-! Verification of the embedded-device crash-test harness.

The development shallowly embeds the Python sources `ilc_test_common.py`
and `test_crash.py`: bytes become natural numbers below 256, byte strings
become lists of naturals, fallible Python calls (constructor range checks,
`struct.pack` overflow) become `Option`, and the networked orchestrator of
`test_crash.py` becomes a state machine driven by an environment oracle
that supplies the outcomes of liveness probes and the counter increments
produced by attack workers.
-/

namespace StressTest

/-! ## Protocol constants (`ilc_test_common.py`, configuration section) -/

def CMD_START : Nat := 0x7E

def CMD_STOP : Nat := 0x7E

def SCB_ADDRESS : Nat := 0x3D

def CMD_GET_SCB_DATA : Nat := 0x01

/-- Little-endian reading of two bytes, the meaning of `struct.unpack('<H', _)`. -/
def uint16le (lo hi : Nat) : Nat := lo + 256 * hi

/-- Model of `struct.pack('<H', n)` for `n < 65536`: the two little-endian bytes. -/
def packUint16LE (n : Nat) : List Nat := [n % 256, n / 256]

/-- The function `build_command(can_addr, cmd_id, data)` of `ilc_test_common.py` lines 47-52.
`bytes([0x00, can_addr, cmd_id])` raises `ValueError` when an argument is
outside 0..255, and `struct.pack('<H', length)` raises `struct.error` when
`length >= 65536`; both failure modes are modelled as `none`. -/
def build_command (can_addr cmd_id : Nat) (data : List Nat) : Option (List Nat) :=
  if 256 ≤ can_addr ∨ 256 ≤ cmd_id then none
  else
    let payload : List Nat := 0x00 :: can_addr :: cmd_id :: data
    let length := payload.length
    if 65536 ≤ length then none
    else some (CMD_START :: packUint16LE length ++ payload ++ [CMD_STOP])

/-- The parsed response structure returned by `parse_response`. -/
structure ResponseFrame where
  length : Nat
  type : Nat
  can_addr : Nat
  cmd_id : Nat
  payload : List Nat
  raw : List Nat
deriving Repr, DecidableEq

/-- The function `parse_response(data)` of `ilc_test_common.py` lines 54-69.
`data[6:-1]` is `(data.drop 6).dropLast`; the source guards it with
`len(data) > 7` and otherwise yields the empty byte string. -/
def parse_response (data : List Nat) : Option ResponseFrame :=
  if data.length < 6 then none
  else if data.headD 0 ≠ CMD_START ∨ data.getLastD 0 ≠ CMD_STOP then none
  else some
    { length := uint16le (data.getD 1 0) (data.getD 2 0)
      type := data.getD 3 0
      can_addr := data.getD 4 0
      cmd_id := data.getD 5 0
      payload := if 7 < data.length then (data.drop 6).dropLast else []
      raw := data }

/-! ## Result aggregator (`ilc_test_common.py`, `TestResult`) -/

/-- The `TestResult` dataclass, restricted to its counter and log fields.
All counters start at 0 and are only ever incremented by the harness. -/
structure TestResult where
  test_name : String
  requests_sent : Nat
  responses_received : Nat
  errors : List String
  timeouts : Nat
  connection_failures : Nat
  device_unresponsive_events : Nat
  possible_crashes : Nat
deriving Repr, DecidableEq

/-- The method `TestResult.success_rate` (lines 189-192): 0 when no requests were sent,
otherwise `responses_received / requests_sent * 100` as exact rational
arithmetic in place of Python floats. -/
def TestResult.success_rate (r : TestResult) : ℚ :=
  if r.requests_sent = 0 then 0
  else (r.responses_received : ℚ) / (r.requests_sent : ℚ) * 100

/-- Appending one error string to the `errors` field, the plain
`result.errors.append(e)` idiom on the dataclass; the class itself offers
no trimming of the list. -/
def TestResult.append_error (r : TestResult) (e : String) : TestResult :=
  { r with errors := r.errors ++ [e] }

/-- The `'errors'` entry of `TestResult.to_dict` (line 212): Python
`self.errors[-20:]`, the suffix of at most 20 most recent entries. -/
def TestResult.to_dict_errors (r : TestResult) : List String :=
  r.errors.drop (r.errors.length - 20)

/-- A fresh result record as `CrashTester.__init__` builds it. -/
def emptyResult : TestResult :=
  { test_name := "crash_test"
    requests_sent := 0
    responses_received := 0
    errors := []
    timeouts := 0
    connection_failures := 0
    device_unresponsive_events := 0
    possible_crashes := 0 }

/-- A counter state with more responses than requests, as the unguarded
concurrent increments of the harness can produce. -/
def overcountedResult : TestResult :=
  { emptyResult with requests_sent := 1, responses_received := 2 }

/-- The result record after 21 error appends on a fresh record. -/
def r21 : TestResult :=
  (List.replicate 21 "e").foldl TestResult.append_error emptyResult

/-! ## Liveness monitor (`ilc_test_common.py`, `wait_for_device`)

Each liveness probe is abstracted by an oracle `probe : Nat → Bool × Nat`
giving, for the k-th probe of the loop, its outcome and the wall-clock time
it consumed (a failing `check_device_alive` blocks for up to its socket
timeout before returning `False`). Time is discrete. -/

/-- The `while time.time() < end_time` loop of `wait_for_device`
(`ilc_test_common.py` lines 125-143): probe, return `true` on success,
otherwise sleep `interval` and retry; return `false` at the first loop
check at or past `endT`. The returned value carries the time of return.
`fuel` bounds the recursion; `none` means the fuel ran out before the
loop terminated. -/
def wait_loop (probe : Nat → Bool × Nat) (endT interval : Nat) :
    Nat → Nat → Nat → Option (Bool × Nat)
  | 0, now, _ => if endT ≤ now then some (false, now) else none
  | Nat.succ fuel, now, k =>
    if endT ≤ now then some (false, now)
    else
      let p := probe k
      if p.1 then some (true, now + p.2)
      else wait_loop probe endT interval fuel (now + p.2 + interval) (k + 1)

/-- The function `wait_for_device(scb_ip, timeout, check_interval)` started at wall-clock
time `start`: the deadline is `start + timeout` and probes begin at index 0. -/
def wait_for_device (probe : Nat → Bool × Nat) (start timeout interval fuel : Nat) :
    Option (Bool × Nat) :=
  wait_loop probe (start + timeout) interval fuel start 0

/-- A probe that always fails and consumes 2 time units per attempt,
like `check_device_alive` timing out against a dead device. -/
def probeSlow : Nat → Bool × Nat := fun _ => (false, 2)

/-! ## Crash tester state (`test_crash.py`, `CrashTester` and globals) -/

/-- The observable state of one `test_crash.py` run: the module-level
`stop_flag`, the `CrashTester` fields, wall-clock time, the indices of the
next environment values to consume, and the lines printed so far (the
`output` field records that a code path was entered; every attack prints a
banner before doing any work). -/
structure CrashState where
  stop_flag : Bool
  crash_detected : Bool
  crash_method : Option String
  result : TestResult
  now : Nat
  probeIdx : Nat
  workIdx : Nat
  output : List String
deriving Repr, DecidableEq

/-- The method `CrashTester.check_for_crash` (`test_crash.py` lines 40-60) as a pure
function of the two I/O outcomes it observes: `alive` is the result of
`check_device_alive`, `recovered` the result of the 60-second
`wait_for_device` bound. -/
def check_for_crash (alive recovered : Bool) (method_name : String) (s : CrashState) :
    CrashState × Bool :=
  if !alive then
    let s1 : CrashState :=
      { s with
        result :=
          { s.result with
            device_unresponsive_events := s.result.device_unresponsive_events + 1 }
        output := s.output ++ ["Device UNRESPONSIVE after " ++ method_name] }
    if recovered then
      ({ s1 with
          crash_detected := true
          crash_method := some method_name
          result := { s1.result with possible_crashes := s1.result.possible_crashes + 1 }
          output := s1.output ++ ["Device recovered - CRASH CONFIRMED"] }, true)
    else
      ({ s1 with
          crash_detected := true
          crash_method := some (method_name ++ " (no recovery)")
          result := { s1.result with possible_crashes := s1.result.possible_crashes + 1 }
          output := s1.output ++ ["Device not recovering"] }, true)
  else (s, false)

/-- The environment oracle driving one run: outcomes of the successive
liveness probes and recovery waits, and the aggregate effect of each
attack work phase on the shared counters and on wall-clock time. -/
structure Env where
  alive : Nat → Bool
  recovered : Nat → Bool
  workSent : Nat → Nat
  workRecv : Nat → Nat
  workTime : Nat → Nat

/-- Run `check_for_crash` with the next probe outcomes of the environment. -/
def do_check (env : Env) (method_name : String) (s : CrashState) : CrashState × Bool :=
  check_for_crash (env.alive s.probeIdx) (env.recovered s.probeIdx) method_name
    { s with probeIdx := s.probeIdx + 1 }

/-- One work phase of an attack: the sockets-and-threads traffic whose only
effect on the model state is the environment-determined advance of the
shared request/response counters and of wall-clock time. -/
def do_work (env : Env) (s : CrashState) : CrashState :=
  { s with
    result :=
      { s.result with
        requests_sent := s.result.requests_sent + env.workSent s.workIdx
        responses_received := s.result.responses_received + env.workRecv s.workIdx }
    now := s.now + env.workTime s.workIdx
    workIdx := s.workIdx + 1 }

/-- The method `CrashTester.attack_concurrent_flood` (lines 62-110): banner, joined
flood workers, then one crash check. The workers never touch
`crash_detected`. -/
def attack_concurrent_flood (env : Env) (s : CrashState) : CrashState × Bool :=
  let s1 := { s with output := s.output ++ ["[ATTACK] Concurrent Flood"] }
  let s2 := do_work env s1
  do_check env "concurrent_flood" s2

/-- The `for i in range(iterations)` loop of `attack_connection_overflow`
(lines 120-158), counting down the remaining iterations: it breaks when
`stop_flag` or `crash_detected` holds, runs a crash check every 10
iterations (returning on a reported crash), and ends in a final crash
check after the loop. -/
def overflow_loop (env : Env) : Nat → Nat → CrashState → CrashState × Bool
  | 0, _, s => do_check env "connection_overflow" s
  | Nat.succ rest, i, s =>
    if s.stop_flag ∨ s.crash_detected then do_check env "connection_overflow" s
    else
      let s1 := do_work env s
      if 0 < i ∧ i % 10 = 0 then
        match do_check env "connection_overflow" s1 with
        | (s2, true) => (s2, true)
        | (s2, false) => overflow_loop env rest (i + 1) s2
      else overflow_loop env rest (i + 1) s1

/-- The method `CrashTester.attack_connection_overflow` (lines 112-158). -/
def attack_connection_overflow (env : Env) (iterations : Nat) (s : CrashState) :
    CrashState × Bool :=
  overflow_loop env iterations 0
    { s with output := s.output ++ ["[ATTACK] Connection Overflow"] }

/-- The iteration loop of `attack_rapid_reconnect` (lines 168-187), with its
crash check every 25 iterations and the final check after the loop. -/
def reconnect_loop (env : Env) : Nat → Nat → CrashState → CrashState × Bool
  | 0, _, s => do_check env "rapid_reconnect" s
  | Nat.succ rest, i, s =>
    if s.stop_flag ∨ s.crash_detected then do_check env "rapid_reconnect" s
    else
      let s1 := do_work env s
      if 0 < i ∧ i % 25 = 0 then
        match do_check env "rapid_reconnect" s1 with
        | (s2, true) => (s2, true)
        | (s2, false) => reconnect_loop env rest (i + 1) s2
      else reconnect_loop env rest (i + 1) s1

/-- The method `CrashTester.attack_rapid_reconnect` (lines 160-187). -/
def attack_rapid_reconnect (env : Env) (iterations : Nat) (s : CrashState) :
    CrashState × Bool :=
  reconnect_loop env iterations 0
    { s with output := s.output ++ ["[ATTACK] Rapid Reconnect"] }

/-- The method `CrashTester.attack_combined_stress` (lines 189-260): banner, four joined
workers, then one crash check. -/
def attack_combined_stress (env : Env) (s : CrashState) : CrashState × Bool :=
  let s1 := { s with output := s.output ++ ["[ATTACK] Combined Stress"] }
  let s2 := do_work env s1
  do_check env "combined_stress" s2

/-- The `attack_sequence` list of `run_crash_test` (lines 284-289), with the
iteration counts used there. -/
def attack_sequence (env : Env) : List (CrashState → CrashState × Bool) :=
  [attack_concurrent_flood env,
   attack_connection_overflow env 30,
   attack_rapid_reconnect env 50,
   attack_combined_stress env]

/-- The `for attack_func in attack_sequence` loop of `run_crash_test`
(lines 299-304): before each attack it breaks when `stop_flag`,
`crash_detected` or the elapsed overall duration demands it, and it breaks
as soon as an attack reports a crash. -/
def round_attacks (endT : Nat) : List (CrashState → CrashState × Bool) → CrashState → CrashState
  | [], s => s
  | f :: rest, s =>
    if s.stop_flag ∨ s.crash_detected ∨ endT ≤ s.now then s
    else
      match f s with
      | (s1, true) => s1
      | (s1, false) => round_attacks endT rest s1

/-- The round loop of `run_crash_test` (lines 291-307): while time remains,
no stop was requested and no crash was detected, print the round banner,
run the attack sequence, and sleep 2 seconds when no crash was detected.
`fuel` bounds the number of rounds considered. -/
def run_rounds (env : Env) (endT : Nat) : Nat → CrashState → CrashState
  | 0, s => s
  | Nat.succ fuel, s =>
    if s.now < endT ∧ s.stop_flag = false ∧ s.crash_detected = false then
      let s1 := { s with output := s.output ++ ["ROUND"] }
      let s2 := round_attacks endT (attack_sequence env) s1
      let s3 := if s2.crash_detected then s2 else { s2 with now := s2.now + 2 }
      run_rounds env endT fuel s3
    else s

/-- The initial state of `run_crash_test` at time 0. -/
def initialState : CrashState :=
  { stop_flag := false
    crash_detected := false
    crash_method := none
    result := emptyResult
    now := 0
    probeIdx := 0
    workIdx := 0
    output := [] }

/-- A state in which a crash has already been detected. -/
def detectedState : CrashState :=
  { initialState with crash_detected := true, crash_method := some "concurrent_flood" }

/-- An environment whose probes always succeed and whose work phases move
no counters and one time unit. -/
def envQuiet : Env :=
  { alive := fun _ => true
    recovered := fun _ => true
    workSent := fun _ => 0
    workRecv := fun _ => 0
    workTime := fun _ => 1 }

/-- A payload long enough to overflow the 16-bit length field of the frame. -/
def hugePayload : List Nat := List.replicate 65533 0

/-! ## Helper lemmas about the codec -/

/-- Successful encoding: below the byte and length bounds, `build_command`
produces exactly the marker-delimited frame. -/
theorem build_command_some (a c : Nat) (p : List Nat) (ha : a < 256) (hc : c < 256)
    (hl : 3 + p.length < 65536) :
    build_command a c p =
      some (CMD_START :: ((3 + p.length) % 256) :: ((3 + p.length) / 256) ::
        0x00 :: a :: c :: (p ++ [CMD_STOP])) := by
  rw [build_command]
  rw [if_neg (by omega)]
  have h2 : (0x00 :: a :: c :: p).length = 3 + p.length := by
    simp only [List.length_cons]; omega
  simp only [h2]
  rw [if_neg (by omega)]
  simp [packUint16LE]

/-- Parsing a well-formed marker-delimited frame recovers every field. -/
theorem parse_frame (lo hi t x y : Nat) (p : List Nat) :
    parse_response (CMD_START :: lo :: hi :: t :: x :: y :: (p ++ [CMD_STOP])) =
      some { length := uint16le lo hi, type := t, can_addr := x, cmd_id := y,
             payload := p, raw := CMD_START :: lo :: hi :: t :: x :: y :: (p ++ [CMD_STOP]) } := by
  cases p with
  | nil => rfl
  | cons b q =>
    rw [parse_response]
    rw [if_neg (by simp only [List.length_cons, List.length_append, List.length_nil]; omega)]
    rw [if_neg (by
      simp
      rw [← List.cons_append, List.getLast?_concat]
      rfl)]
    have h7 : 7 < (CMD_START :: lo :: hi :: t :: x :: y :: ((b :: q) ++ [CMD_STOP])).length := by
      simp only [List.length_cons, List.length_append, List.length_nil]; omega
    simp [List.getD, h7, uint16le]
    rw [← List.cons_append, List.dropLast_concat]

/-! ## Helper lemmas about the crash-detection state machine -/

/-- A crash check never clears an already-set `crash_detected` flag. -/
theorem check_for_crash_mono (a r : Bool) (n : String) (s : CrashState)
    (h : s.crash_detected = true) :
    ((check_for_crash a r n s).1).crash_detected = true := by
  cases a <;> cases r <;> simp [check_for_crash, h]

/-- An environment-driven crash check never clears `crash_detected`. -/
theorem do_check_mono (env : Env) (n : String) (s : CrashState)
    (h : s.crash_detected = true) :
    ((do_check env n s).1).crash_detected = true :=
  check_for_crash_mono _ _ _ _ h

/-- The connection-overflow iteration loop never clears `crash_detected`. -/
theorem overflow_loop_mono (env : Env) (its i : Nat) (s : CrashState)
    (h : s.crash_detected = true) :
    ((overflow_loop env its i s).1).crash_detected = true := by
  cases its with
  | zero => exact do_check_mono _ _ _ h
  | succ rest =>
    rw [overflow_loop]
    rw [if_pos (Or.inr h)]
    exact do_check_mono _ _ _ h

/-- The rapid-reconnect iteration loop never clears `crash_detected`. -/
theorem reconnect_loop_mono (env : Env) (its i : Nat) (s : CrashState)
    (h : s.crash_detected = true) :
    ((reconnect_loop env its i s).1).crash_detected = true := by
  cases its with
  | zero => exact do_check_mono _ _ _ h
  | succ rest =>
    rw [reconnect_loop]
    rw [if_pos (Or.inr h)]
    exact do_check_mono _ _ _ h

/-- The per-round attack loop is a no-op on a state with a detected crash. -/
theorem round_attacks_detected (endT : Nat) (attacks : List (CrashState → CrashState × Bool))
    (s : CrashState) (h : s.crash_detected = true) :
    round_attacks endT attacks s = s := by
  cases attacks with
  | nil => rfl
  | cons f rest =>
    rw [round_attacks]
    rw [if_pos (Or.inr (Or.inl h))]

/-- The round loop is a no-op on a state with a detected crash. -/
theorem run_rounds_detected (env : Env) (endT fuel : Nat) (s : CrashState)
    (h : s.crash_detected = true) :
    run_rounds env endT fuel s = s := by
  cases fuel with
  | zero => rfl
  | succ fuel =>
    rw [run_rounds]
    rw [if_neg (by simp [h])]

/-! ## Helper lemmas about the recovery wait -/

/-- Once the deadline has passed, the wait loop returns `false` immediately,
at the current time, with any fuel. -/
theorem wait_loop_done (probe : Nat → Bool × Nat) (endT interval fuel now k : Nat)
    (h : endT ≤ now) :
    wait_loop probe endT interval fuel now k = some (false, now) := by
  cases fuel with
  | zero => rw [wait_loop, if_pos h]
  | succ fuel => rw [wait_loop, if_pos h]

/-- Against an always-failing probe of bounded duration, the wait loop
started before the deadline returns `false` at a time in
`[endT, endT + D + interval)`, given fuel at least the remaining time. -/
theorem wait_loop_fail (probe : Nat → Bool × Nat) (endT interval D : Nat)
    (hfail : ∀ k, (probe k).1 = false) (hD : ∀ k, (probe k).2 ≤ D)
    (hint : 1 ≤ interval) :
    ∀ fuel now k, now < endT → endT - now ≤ fuel →
      ∃ t, wait_loop probe endT interval fuel now k = some (false, t) ∧
        endT ≤ t ∧ t < endT + D + interval := by
  intro fuel
  induction fuel with
  | zero => intro now k h1 h2; omega
  | succ fuel ih =>
    intro now k h1 h2
    rw [wait_loop]
    rw [if_neg (by omega)]
    simp only [hfail k, Bool.false_eq_true, if_false]
    by_cases hend : now + (probe k).2 + interval < endT
    · rcases ih (now + (probe k).2 + interval) (k + 1) hend (by omega) with ⟨t, ht, h3, h4⟩
      exact ⟨t, ht, h3, h4⟩
    · refine ⟨now + (probe k).2 + interval,
        wait_loop_done probe endT interval fuel _ (k + 1) (by omega), by omega, ?_⟩
      have := hD k
      omega

/-! ## Claim theorems -/

/-- Claim C1: for every destination address `a` in 0..255, command id `c` in
0..255, and payload `p` with `len(p) ≤ 60000`, decoding the frame produced by
`build_command a c p` succeeds and yields a response with `type = 0`,
`can_addr = a`, `cmd_id = c` and `payload = p`. -/
theorem encode_decode_roundtrip (a c : Nat) (p : List Nat) (ha : a < 256) (hc : c < 256)
    (hp : p.length ≤ 60000) :
    ∃ frame r, build_command a c p = some frame ∧ parse_response frame = some r ∧
      r.type = 0 ∧ r.can_addr = a ∧ r.cmd_id = c ∧ r.payload = p :=
  ⟨_, _, build_command_some a c p ha hc (by omega),
    parse_frame _ _ _ _ _ p, rfl, rfl, rfl, rfl⟩

/-- Witness for C1 at address 61, command 1, payload `[9]`. -/
theorem encode_decode_roundtrip_witness :
    ∃ frame r, build_command 61 1 [9] = some frame ∧ parse_response frame = some r ∧
      r.type = 0 ∧ r.can_addr = 61 ∧ r.cmd_id = 1 ∧ r.payload = [9] :=
  encode_decode_roundtrip 61 1 [9] (by decide) (by decide) (by decide)

/-- Claim C2: on an unresponsive liveness probe, `check_for_crash` increments
the unresponsive-event counter by exactly 1 and the possible-crash counter by
exactly 1, sets `crash_detected`, records the attack name as the method (with
the "(no recovery)" qualifier exactly when the recovery wait failed), and
reports a crash by returning `true` — in both recovery branches. -/
theorem check_for_crash_unresponsive (recovered : Bool) (name : String) (s : CrashState) :
    (check_for_crash false recovered name s).2 = true ∧
    ((check_for_crash false recovered name s).1).crash_detected = true ∧
    ((check_for_crash false recovered name s).1).result.device_unresponsive_events =
      s.result.device_unresponsive_events + 1 ∧
    ((check_for_crash false recovered name s).1).result.possible_crashes =
      s.result.possible_crashes + 1 ∧
    ((check_for_crash false recovered name s).1).crash_method =
      some (if recovered then name else name ++ " (no recovery)") := by
  cases recovered <;> simp [check_for_crash]

/-- Claim C3 (corrected), counterexample: with `requests_sent = 1` and
`responses_received = 2` — values the unsynchronized concurrent counter
updates can reach — `success_rate` returns 200, outside `[0, 100]`. -/
theorem success_rate_exceeds_hundred :
    overcountedResult.success_rate = 200 ∧ ¬(overcountedResult.success_rate ≤ 100) := by
  norm_num [TestResult.success_rate, overcountedResult, emptyResult]

/-- Claim C3 (amended): `success_rate` is 0 when `requests_sent = 0`; it is
always nonnegative; it is at most 100 whenever
`responses_received ≤ requests_sent`; and for fixed `requests_sent` it is
non-decreasing in `responses_received`. -/
theorem success_rate_amended (r : TestResult) :
    (r.requests_sent = 0 → r.success_rate = 0) ∧
    0 ≤ r.success_rate ∧
    (r.responses_received ≤ r.requests_sent → r.success_rate ≤ 100) ∧
    (∀ r2 : TestResult, r2.requests_sent = r.requests_sent →
      r.responses_received ≤ r2.responses_received → r.success_rate ≤ r2.success_rate) := by
  refine ⟨fun h => by simp [TestResult.success_rate, h], ?_, ?_, ?_⟩
  · by_cases h : r.requests_sent = 0
    · simp [TestResult.success_rate, h]
    · simp only [TestResult.success_rate, if_neg h]
      positivity
  · intro hle
    by_cases h : r.requests_sent = 0
    · simp [TestResult.success_rate, h]
    · simp only [TestResult.success_rate, if_neg h]
      have hreq : (0:ℚ) < (r.requests_sent:ℚ) := by
        exact_mod_cast Nat.pos_of_ne_zero h
      have hc : (r.responses_received:ℚ) ≤ (r.requests_sent:ℚ) := by exact_mod_cast hle
      rw [div_mul_eq_mul_div, div_le_iff₀ hreq]
      nlinarith
  · intro r2 he hle
    by_cases h : r.requests_sent = 0
    · have h2 : r2.requests_sent = 0 := by rw [he, h]
      simp [TestResult.success_rate, h, h2]
    · have h2 : r2.requests_sent ≠ 0 := by rw [he]; exact h
      simp only [TestResult.success_rate, if_neg h, if_neg h2, he]
      have hreq : (0:ℚ) < (r.requests_sent:ℚ) := by exact_mod_cast Nat.pos_of_ne_zero h
      have hc : (r.responses_received:ℚ) ≤ (r2.responses_received:ℚ) := by exact_mod_cast hle
      exact mul_le_mul_of_nonneg_right ((div_le_div_iff_of_pos_right hreq).mpr hc) (by norm_num)

/-- Witness for the amended C3 at the fresh result record. -/
theorem success_rate_amended_witness :
    emptyResult.success_rate = 0 ∧ 0 ≤ emptyResult.success_rate ∧
    emptyResult.success_rate ≤ 100 ∧ emptyResult.success_rate ≤ emptyResult.success_rate :=
  ⟨(success_rate_amended emptyResult).1 rfl,
   (success_rate_amended emptyResult).2.1,
   (success_rate_amended emptyResult).2.2.1 (by decide),
   (success_rate_amended emptyResult).2.2.2 emptyResult rfl (le_refl _)⟩

/-- Claim C4 (corrected), counterexample: after 21 error appends the stored
error log holds 21 entries — the `errors` field itself is unbounded; only
serialization truncates. -/
theorem stored_error_log_unbounded :
    r21.errors.length = 21 ∧ ¬(r21.errors.length ≤ 20) := by
  constructor
  · decide
  · decide

/-- Claim C4 (amended): the stored error log is unbounded, but the `errors`
entry of the serialized record always holds at most 20 entries and is a
suffix of the stored log — the most recent entries, oldest discarded. -/
theorem serialized_errors_bounded (r : TestResult) :
    r.to_dict_errors.length ≤ 20 ∧ ∃ dropped, dropped ++ r.to_dict_errors = r.errors := by
  constructor
  · rw [TestResult.to_dict_errors, List.length_drop]
    omega
  · exact ⟨r.errors.take (r.errors.length - 20), List.take_append_drop _ _⟩

/-- Claim C5: `parse_response` returns `none` for every input shorter than
6 bytes, and for every input whose first byte differs from the start marker
or whose last byte differs from the stop marker. -/
theorem decode_rejects_malformed (data : List Nat)
    (h : data.length < 6 ∨ data.headD 0 ≠ CMD_START ∨ data.getLastD 0 ≠ CMD_STOP) :
    parse_response data = none := by
  rcases h with h | h
  · rw [parse_response, if_pos h]
  · by_cases h6 : data.length < 6
    · rw [parse_response, if_pos h6]
    · rw [parse_response, if_neg h6, if_pos h]

/-- Witness for C5 at the three-byte input `[1, 2, 3]`. -/
theorem decode_rejects_malformed_witness : parse_response [1, 2, 3] = none :=
  decode_rejects_malformed [1, 2, 3] (Or.inl (by decide))

/-- Claim C6 (corrected), counterexample: a 65533-byte payload makes the
length field `3 + 65533 = 65536` overflow `struct.pack('<H', _)`, so
`build_command` fails rather than always succeeding. -/
theorem encode_length_overflow : build_command 0x3D 0x01 hugePayload = none := by
  have h : (0x00 :: 0x3D :: 0x01 :: hugePayload).length = 65536 := by
    rw [List.length_cons, List.length_cons, List.length_cons, hugePayload,
      List.length_replicate]
  rw [build_command]
  simp only [h]
  norm_num

/-- Claim C6 (amended): for destination address and command id in 0..255 and
payload with `3 + len(payload) ≤ 65535`, `build_command` succeeds and returns
start-marker, length as little-endian uint16, `0x00`, address, command id,
payload, stop-marker, with the length field equal to `3 + len(payload)`. -/
theorem encode_frame_shape (a c : Nat) (p : List Nat) (ha : a < 256) (hc : c < 256)
    (hl : 3 + p.length < 65536) :
    build_command a c p =
      some ([CMD_START] ++ packUint16LE (3 + p.length) ++ [0x00, a, c] ++ p ++ [CMD_STOP]) := by
  rw [build_command_some a c p ha hc hl]
  simp [packUint16LE]

/-- Witness for the amended C6 at address 61, command 1, payload `[170]`. -/
theorem encode_frame_shape_witness :
    build_command 61 1 [170] = some [126, 4, 0, 0, 61, 1, 170, 126] :=
  encode_frame_shape 61 1 [170] (by decide) (by decide) (by decide)

/-- Claim C7: crash detection is sticky and terminal. On any state with
`crash_detected` set, the round loop and the per-round attack loop return
the state unchanged (no attack banner is printed, no counter moves, so no
attack descriptor body executes), and no step of the model — the crash
check or any of the four attack descriptors — ever clears the flag. -/
theorem crash_detection_sticky_terminal (env : Env) (endT fuel : Nat) (s : CrashState)
    (h : s.crash_detected = true) :
    run_rounds env endT fuel s = s ∧
    (∀ attacks, round_attacks endT attacks s = s) ∧
    (∀ a r n, ((check_for_crash a r n s).1).crash_detected = true) ∧
    ((attack_concurrent_flood env s).1).crash_detected = true ∧
    (∀ its, ((attack_connection_overflow env its s).1).crash_detected = true) ∧
    (∀ its, ((attack_rapid_reconnect env its s).1).crash_detected = true) ∧
    ((attack_combined_stress env s).1).crash_detected = true :=
  ⟨run_rounds_detected env endT fuel s h,
   fun attacks => round_attacks_detected endT attacks s h,
   fun a r n => check_for_crash_mono a r n s h,
   do_check_mono _ _ _ h,
   fun its => overflow_loop_mono env its 0 _ h,
   fun its => reconnect_loop_mono env its 0 _ h,
   do_check_mono _ _ _ h⟩

/-- Witness for C7: on a detected-crash state the round loop does nothing. -/
theorem crash_detection_sticky_terminal_witness :
    run_rounds envQuiet 10 3 detectedState = detectedState :=
  (crash_detection_sticky_terminal envQuiet 10 3 detectedState rfl).1

/-- Claim C8 (corrected), counterexample: with a probe that always fails and
takes 2 time units per attempt, timeout 5 and poll interval 2, the wait
returns `false` only at time 8, later than timeout plus one poll interval
(7) after the call. -/
theorem wait_for_recovery_exceeds_window :
    wait_for_device probeSlow 0 5 2 10 = some (false, 8) ∧ ¬((8:Nat) ≤ 5 + 2) :=
  ⟨by decide, by decide⟩

/-- Claim C8 (amended): when every liveness probe fails and each probe takes
at most `D` time units, `wait_for_device` returns `false` at a time no
earlier than the configured timeout after the call and no later than the
timeout plus one probe duration bound plus one poll interval after it. -/
theorem wait_for_recovery_window (probe : Nat → Bool × Nat)
    (start timeout interval D fuel : Nat)
    (hfail : ∀ k, (probe k).1 = false) (hD : ∀ k, (probe k).2 ≤ D)
    (hint : 1 ≤ interval) (hfuel : timeout ≤ fuel) :
    ∃ t, wait_for_device probe start timeout interval fuel = some (false, t) ∧
      start + timeout ≤ t ∧ t ≤ start + timeout + D + interval := by
  by_cases h0 : timeout = 0
  · subst h0
    exact ⟨start, wait_loop_done probe (start + 0) interval fuel start 0 (by omega),
      by omega, by omega⟩
  · rcases wait_loop_fail probe (start + timeout) interval D hfail hD hint fuel start 0
      (by omega) (by omega) with ⟨t, ht, h3, h4⟩
    exact ⟨t, ht, h3, by omega⟩

/-- Witness for the amended C8 with the slow always-failing probe. -/
theorem wait_for_recovery_window_witness :
    ∃ t, wait_for_device probeSlow 0 5 2 10 = some (false, t) ∧
      0 + 5 ≤ t ∧ t ≤ 0 + 5 + 2 + 2 :=
  wait_for_recovery_window probeSlow 0 5 2 2 10 (fun _ => rfl) (fun _ => le_refl 2)
    (by decide) (by decide)

/-- Claim C9: on any input of length at least 6 whose first and last bytes
are the markers, `parse_response` succeeds and extracts the little-endian
length of bytes 1-2, type byte 3, address byte 4, command byte 5, and as
payload bytes 6 through end-1 (empty when the input has at most 7 bytes);
nothing ties the declared length field to the actual payload size. -/
theorem decode_extracts_fields (data : List Nat) (h6 : 6 ≤ data.length)
    (hh : data.headD 0 = CMD_START) (hl : data.getLastD 0 = CMD_STOP) :
    parse_response data = some
      { length := uint16le (data.getD 1 0) (data.getD 2 0)
        type := data.getD 3 0
        can_addr := data.getD 4 0
        cmd_id := data.getD 5 0
        payload := data.dropLast.drop 6
        raw := data } ∧ (data.length ≤ 7 → data.dropLast.drop 6 = []) := by
  have hcomm : (data.drop 6).dropLast = data.dropLast.drop 6 := by
    rcases Nat.lt_or_ge data.length 7 with h7 | h7
    · have e1 : data.drop 6 = [] := List.drop_eq_nil_of_le (by omega)
      have e2 : data.dropLast.drop 6 = [] :=
        List.drop_eq_nil_of_le (by rw [List.length_dropLast]; omega)
      rw [e1, e2]; rfl
    · rw [List.dropLast_eq_take, List.dropLast_eq_take, List.length_drop, List.take_drop]
      have harith : 6 + (data.length - 6 - 1) = data.length - 1 := by omega
      rw [harith]
  constructor
  · have hp : (if 7 < data.length then (data.drop 6).dropLast else []) =
        data.dropLast.drop 6 := by
      by_cases h7 : 7 < data.length
      · rw [if_pos h7, hcomm]
      · rw [if_neg h7, eq_comm]
        exact List.drop_eq_nil_of_le (by rw [List.length_dropLast]; omega)
    have hcond : ¬(data.headD 0 ≠ CMD_START ∨ data.getLastD 0 ≠ CMD_STOP) := by
      simp only [not_or, ne_eq, not_not]
      exact ⟨hh, hl⟩
    rw [parse_response]
    rw [if_neg (show ¬data.length < 6 by omega)]
    rw [if_neg hcond]
    rw [hp]
  · intro h7
    exact List.drop_eq_nil_of_le (by rw [List.length_dropLast]; omega)

/-- Witness for C9 at a 7-byte frame whose declared length (265) does not
match its empty payload. -/
theorem decode_extracts_fields_witness :
    parse_response [126, 9, 1, 5, 6, 7, 126] = some
      { length := 265, type := 5, can_addr := 6, cmd_id := 7, payload := [],
        raw := [126, 9, 1, 5, 6, 7, 126] } ∧
    (([126, 9, 1, 5, 6, 7, 126] : List Nat).length ≤ 7 →
      ([126, 9, 1, 5, 6, 7, 126] : List Nat).dropLast.drop 6 = []) :=
  decode_extracts_fields [126, 9, 1, 5, 6, 7, 126] (by decide) (by decide) (by decide)

/-- Claim C10: when the liveness probe reports the device alive,
`check_for_crash` returns `false` and leaves the entire state — every
counter, the error log, `crash_detected`, `crash_method`, and even the
printed output — exactly unchanged. -/
theorem check_for_crash_alive_frame (recovered : Bool) (name : String) (s : CrashState) :
    check_for_crash true recovered name s = (s, false) := by
  simp [check_for_crash]

end StressTest
